import Mathlib

/-!
A shallow embedding of the request-dispatch core of `flask.py` (the
single-module Flask 0.1 source): the request-context stack and ambient
proxies, the before/after hook pipeline, error-handler dispatch, response
coercion (`make_response`), session persistence (`process_response`), and
the flash-message cache (`get_flashed_messages`).

Python values that the pipeline moves around are modelled by small
inductive types; Python `None` is modelled by `Option.none`; raised
exceptions are modelled with `Except`.  External collaborators (the
werkzeug response constructor, `Response.force_type`, the WSGI-callable
buffering) are modelled by the contracts the module relies on: a WSGI
callable is characterised by the response it produces when invoked and
buffered, and an HTTP exception object, which werkzeug makes callable as a
WSGI application, by its status code and error page body.
-/

namespace Flask

/-- A Python value stored in a session or passed as a positional argument
to the response constructor. -/
inductive PyObj where
  | str (s : String)
  | int (n : Int)
  | list (l : List String)
  deriving DecidableEq

/-- A session object: the string-keyed mapping backed by the secure
cookie (`werkzeug.contrib.securecookie.SecureCookie`). -/
abbrev Sess : Type := List (String × PyObj)

/-- A canonical response object (`response_class` instance): body, status
code, and the cookies written into it by `save_session` (modelling the
`Set-Cookie` headers that `session.save_cookie` adds). -/
structure Resp where
  body : String
  status : Int
  cookies : List Sess
  deriving DecidableEq

/-- A WSGI callable, characterised by the response produced when it is
invoked against the request environ and buffered
(`response_class.force_type`). -/
structure Wsgi where
  body : String
  status : Int
  deriving DecidableEq

/-- An HTTP exception object (`werkzeug.exceptions.HTTPException`):
carries a numeric status code and the error-page body it renders when
called as a WSGI application. -/
structure HTTPExc where
  code : Int
  body : String
  deriving DecidableEq

/-- A view/hook/handler return value: the shapes `make_response` can
receive.  `str` covers both `str` and `unicode` text bodies; `wsgi` is an
arbitrary WSGI callable; `httpExc` is an HTTP exception object returned
as a value (the `return e` branch of `dispatch_request`); `other` is any
object of none of these shapes (tagged so distinct ones exist). -/
inductive RV where
  | resp (r : Resp)
  | str (s : String)
  | tuple (args : List PyObj)
  | wsgi (w : Wsgi)
  | httpExc (e : HTTPExc)
  | other (tag : Nat)
  deriving DecidableEq

/-- An exception raised during routing or view invocation:
`HTTPException` instances versus every other exception (tagged). -/
inductive Exc where
  | http (e : HTTPExc)
  | other (tag : Nat)
  deriving DecidableEq

/-- Failure of response coercion: `unroutable` when the value matches no
recognised shape (the spec's UnroutableResultError), `construction` when
a malformed tuple fails inside the response constructor. -/
inductive CoerceErr where
  | unroutable
  | construction
  deriving DecidableEq

/-- The request object (`Request.__init__`): remembers the matched
endpoint and view arguments, both `None` until `match_request` fills
them in. -/
structure Request where
  endpoint : Option String
  view_args : Option (List (String × PyObj))
  deriving DecidableEq

/-- A registered before-request hook: an identifier (its registration
slot, so that execution order is observable) and the value the hook
returns when invoked (`None` or a view-style return value). -/
structure Hook where
  id : Nat
  ret : Option RV
  deriving DecidableEq

/-- The application object: the fields of `Flask.__init__` that the
dispatch pipeline reads.  `error_handlers` is the status-code-keyed
handler dict; after-request hooks carry an identifier like before
hooks do. -/
structure App where
  debug : Bool
  error_handlers : Int → Option (Exc → RV)
  before_request_funcs : List Hook
  after_request_funcs : List (Nat × (Resp → Resp))

/-- The request globals bag (`_RequestGlobals`). -/
abbrev Globals : Type := List (String × PyObj)

/-- The request context (`_RequestContext.__init__`): the owning app, the
request object, the session opened for the request (`None` when no secret
key is set), the globals bag, and the lazily-filled flash cache
(`self.flashes = None`). -/
structure RequestCtx where
  app : App
  request : Request
  session : Option Sess
  g : Globals
  flashes : Option PyObj

/-- `_RequestContext.__init__`: fresh globals bag, flash cache not yet
loaded.  The URL-adapter binding and `open_session` are external; the
opened session arrives as a parameter. -/
def RequestCtx.init (app : App) (req : Request) (sess : Option Sess) : RequestCtx :=
  { app := app, request := req, session := sess, g := [], flashes := none }

/-- `_request_ctx_stack.top`: the most recently pushed context, `None`
when the stack is empty (werkzeug `LocalStack.top`). -/
def stackTop (stack : List RequestCtx) : Option RequestCtx :=
  stack.head?

/-- Failure of an ambient proxy: accessing it with no context on the
stack (the spec's NoContextError; concretely the `AttributeError` from
dereferencing `None.app` and friends). -/
inductive ProxyErr where
  | noContext
  deriving DecidableEq

/-- The `current_app` proxy: resolves `_request_ctx_stack.top.app` at
access time. -/
def current_app (stack : List RequestCtx) : Except ProxyErr App :=
  match stackTop stack with
  | none => .error .noContext
  | some ctx => .ok ctx.app

/-- The `request` proxy: resolves `_request_ctx_stack.top.request`. -/
def request (stack : List RequestCtx) : Except ProxyErr Request :=
  match stackTop stack with
  | none => .error .noContext
  | some ctx => .ok ctx.request

/-- The `session` proxy: resolves `_request_ctx_stack.top.session`. -/
def session (stack : List RequestCtx) : Except ProxyErr (Option Sess) :=
  match stackTop stack with
  | none => .error .noContext
  | some ctx => .ok ctx.session

/-- The `g` proxy: resolves `_request_ctx_stack.top.g`. -/
def g (stack : List RequestCtx) : Except ProxyErr Globals :=
  match stackTop stack with
  | none => .error .noContext
  | some ctx => .ok ctx.g

/-- `_RequestContext.__exit__`: pop the stack unless an exception is in
flight (`tb` non-`None`) and the app is in debug mode, in which case the
context is left for the post-mortem debugger. -/
def RequestCtx.exitScope (selfc : RequestCtx) (tb : Option Exc)
    (stack : List RequestCtx) : List RequestCtx :=
  if tb = none ∨ selfc.app.debug = false then stack.tail else stack

/-- `Flask.preprocess_request`: run the before-request hooks in
registration order; the first whose return value `is not None` stops the
loop and becomes the result.  Also returns the ids of the hooks that
were actually invoked, in order. -/
def preprocess_request : List Hook → Option RV × List Nat
  | [] => (none, [])
  | h :: rest =>
    match h.ret with
    | some v => (some v, [h.id])
    | none =>
      let rec' := preprocess_request rest
      (rec'.1, h.id :: rec'.2)

/-- `Flask.dispatch_request`: the routing-plus-view step is abstracted
as its outcome `view` (a return value, or the exception that
`match_request` or the view function raised).  An `HTTPException` is
looked up in `error_handlers` under its own code and, absent a handler,
returned itself; any other exception is looked up under 500 and
re-raised when the app is in debug mode or no handler is registered. -/
def dispatch_request (app : App) (view : Except Exc RV) : Except Exc RV :=
  match view with
  | .ok v => .ok v
  | .error (.http e) =>
    match app.error_handlers e.code with
    | none => .ok (.httpExc e)
    | some handler => .ok (handler (.http e))
  | .error (.other t) =>
    match app.error_handlers 500 with
    | none => .error (.other t)
    | some handler =>
      if app.debug then .error (.other t) else .ok (handler (.other t))

/-- The werkzeug response constructor `response_class(*args)` receiving
the splatted tuple positionally, modelled for its leading parameters
`(response, status, ...)`: no arguments gives an empty body with the
default 200 status, a text body gives that body with status 200, a text
body plus an integer gives that body with that status; any other
argument list fails at construction time. -/
def response_ctor (args : List PyObj) : Except CoerceErr Resp :=
  match args with
  | [] => .ok { body := "", status := 200, cookies := [] }
  | [.str b] => .ok { body := b, status := 200, cookies := [] }
  | [.str b, .int s] => .ok { body := b, status := s, cookies := [] }
  | _ => .error .construction

/-- `Flask.make_response`: an instance of `response_class` is returned
unchanged; a text body is wrapped via the constructor; a tuple is
splatted into the constructor; everything else goes to
`response_class.force_type`, which invokes the value as a WSGI
application against the request environ and buffers the output — this
succeeds for WSGI callables and for HTTP exception objects (which
werkzeug makes callable), and fails for any other object. -/
def make_response (rv : RV) : Except CoerceErr Resp :=
  match rv with
  | .resp r => .ok r
  | .str s => .ok { body := s, status := 200, cookies := [] }
  | .tuple args => response_ctor args
  | .wsgi w => .ok { body := w.body, status := w.status, cookies := [] }
  | .httpExc e => .ok { body := e.body, status := e.code, cookies := [] }
  | .other _ => .error .unroutable

/-- `Flask.save_session`: a no-op on a `None` session, otherwise
`session.save_cookie(response, ...)` writes the session into the
response. -/
def save_session (sess : Option Sess) (response : Resp) : Resp :=
  match sess with
  | none => response
  | some s => { response with cookies := response.cookies ++ [s] }

/-- An observable step of `process_response`: the single session save,
or the invocation of the after-request hook with the given id. -/
inductive Event where
  | save
  | after (i : Nat)
  deriving DecidableEq

/-- The after-request hook loop of `process_response`: each hook
receives the current response and its return value replaces it.  Also
returns the invocation events in order. -/
def run_after_funcs : List (Nat × (Resp → Resp)) → Resp → Resp × List Event
  | [], response => (response, [])
  | (i, f) :: rest, response =>
    let rec' := run_after_funcs rest (f response)
    (rec'.1, .after i :: rec'.2)

/-- `Flask.process_response`: save the session into the response when the
context's session `is not None`, then run the after-request hooks in
registration order.  Returns the final response and the event trace. -/
def process_response (app : App) (sess : Option Sess) (response : Resp) :
    Resp × List Event :=
  match sess with
  | none => run_after_funcs app.after_request_funcs response
  | some s =>
    let saved := save_session (some s) response
    let rec' := run_after_funcs app.after_request_funcs saved
    (rec'.1, .save :: rec'.2)

/-- Number of session saves recorded in a `process_response` trace. -/
def countSaves (trace : List Event) : Nat :=
  (trace.filter (fun ev => ev = Event.save)).length

/-- An exception escaping `wsgi_app`: an uncaught routing/view exception
re-raised by `dispatch_request`, or a response-coercion failure raised
by `make_response`. -/
inductive WsgiErr where
  | exc (e : Exc)
  | coerce (c : CoerceErr)


/-- The observable behaviour of one `wsgi_app` run: which before-request
hooks ran (in order), whether routing/view dispatch was consulted at
all, and the `process_response` event trace. -/
structure PTrace where
  beforeRun : List Nat
  viewInvoked : Bool
  events : List Event


/-- `Flask.wsgi_app` inside the request context: run
`preprocess_request`; only when it returned `None` run
`dispatch_request` (whose routing-plus-view outcome is the abstracted
`view`); coerce the result with `make_response`; post-process with
`process_response` using the context's session.  Exceptions escape. -/
def wsgi_app (app : App) (view : Except Exc RV) (sess : Option Sess) :
    Except WsgiErr (Resp × PTrace) :=
  let pre := preprocess_request app.before_request_funcs
  let step : Except Exc RV × Bool :=
    match pre.1 with
    | some v => (.ok v, false)
    | none => (dispatch_request app view, true)
  match step.1 with
  | .error e => .error (.exc e)
  | .ok rv =>
    match make_response rv with
    | .error c => .error (.coerce c)
    | .ok response =>
      let post := process_response app sess response
      .ok (post.1, { beforeRun := pre.2, viewInvoked := step.2, events := post.2 })

/-- `dict.get` on the session's key-value pairs (dict keys are unique;
the first match is the binding). -/
def sessionGet : Sess → String → Option PyObj
  | [], _ => none
  | (k, v) :: rest, key => if k = key then some v else sessionGet rest key

/-- Key removal as performed by `dict.pop`: drop the binding for the
key. -/
def sessionErase : Sess → String → Sess
  | [], _ => []
  | (k, v) :: rest, key => if k = key then rest else (k, v) :: sessionErase rest key

/-- Failure of `get_flashed_messages`: the session proxy resolved to
`None`, so `session.pop` raises. -/
inductive FlashErr where
  | noSession
  deriving DecidableEq

/-- `get_flashed_messages`, acting on the top request context: if the
flash cache is still `None`, pop `_flashes` from the session (defaulting
to the empty list) and cache it on the context; otherwise return the
cache untouched. -/
def get_flashed_messages (ctx : RequestCtx) :
    Except FlashErr (PyObj × RequestCtx) :=
  match ctx.flashes with
  | some fs => .ok (fs, ctx)
  | none =>
    match ctx.session with
    | none => .error .noSession
    | some s =>
      let fs := (sessionGet s "_flashes").getD (.list [])
      .ok (fs, { ctx with session := some (sessionErase s "_flashes"),
                          flashes := some fs })

/-- Whether the splatted tuple is accepted by the response constructor. -/
def tupleCtorOk (args : List PyObj) : Bool :=
  match response_ctor args with
  | .ok _ => true
  | .error _ => false

/-- Exactly the three value shapes that the specification sentence under
scrutiny lists as accepted by response coercion: an already-canonical
response, a text body, and a (well-formed) tuple of response-constructor
arguments. -/
def claimAcceptedShape : RV → Bool
  | .resp _ => true
  | .str _ => true
  | .tuple args => tupleCtorOk args
  | .wsgi _ => false
  | .httpExc _ => false
  | .other _ => false

/-- The value shapes for which `make_response` actually produces a
canonical response: the three above plus any value that `force_type` can
run as a WSGI application — a WSGI callable or an HTTP exception
object. -/
def acceptedShape : RV → Bool
  | .resp _ => true
  | .str _ => true
  | .tuple args => tupleCtorOk args
  | .wsgi _ => true
  | .httpExc _ => true
  | .other _ => false

/-- The value shapes `make_response` recognises at all (a malformed
tuple is recognised as a tuple but then fails inside the constructor);
only unrecognised values reach the `UnroutableResultError` outcome. -/
def recognizedShape : RV → Bool
  | .resp _ => true
  | .str _ => true
  | .tuple _ => true
  | .wsgi _ => true
  | .httpExc _ => true
  | .other _ => false

/-- An empty error-handler registry. -/
def noHandlers : Int → Option (Exc → RV) := fun _ => none

/-- A minimal application: debug off, nothing registered. -/
def app0 : App :=
  { debug := false, error_handlers := noHandlers,
    before_request_funcs := [], after_request_funcs := [] }

/-- The minimal application with the debug flag set. -/
def dbgApp : App :=
  { app0 with debug := true }

/-- A fresh request object (`Request.__init__` state). -/
def req0 : Request :=
  { endpoint := none, view_args := none }

/-- A request context of the debug application, for the debug-retention
scenario. -/
def dbgCtx : RequestCtx :=
  RequestCtx.init dbgApp req0 none

/-- A handler registered under status 500, recognisable by its output. -/
def h500 : Exc → RV := fun _ => RV.str "handled500"

/-- An application with only a 500 handler registered and debug off. -/
def appWith500 : App :=
  { app0 with error_handlers := fun c => if c = 500 then some h500 else none }

/-- A handler registered under status 404, recognisable by its output. -/
def h404 : Exc → RV := fun _ => RV.str "custom404"

/-- An application with only a 404 handler registered. -/
def appWith404 : App :=
  { app0 with error_handlers := fun c => if c = 404 then some h404 else none }

/-- A before-request hook that returns `None`. -/
def hookNone : Hook := { id := 0, ret := none }

/-- A before-request hook returning the empty string: falsy, but not the
`None` sentinel. -/
def hookEmpty : Hook := { id := 1, ret := some (RV.str "") }

/-- A before-request hook that would return a value, placed after the
short-circuiting one. -/
def hookLate : Hook := { id := 2, ret := some (RV.str "late") }

/-- An after-request hook that replaces the response status with 201. -/
def afterSet201 : Nat × (Resp → Resp) :=
  (5, fun response => { response with status := 201 })

/-- An application with the three sample before-request hooks and one
after-request hook registered. -/
def appHooks : App :=
  { app0 with before_request_funcs := [hookNone, hookEmpty, hookLate],
              after_request_funcs := [afterSet201] }

/-- A sample session holding a flashed message and one other key. -/
def flashSess : Sess :=
  [("_flashes", PyObj.list ["hi"]), ("user", PyObj.str "ada")]

/-- A fresh request context whose session carries `flashSess`. -/
def flashCtx : RequestCtx :=
  RequestCtx.init app0 req0 (some flashSess)

/-- `preprocess_request` walks past a prefix of hooks that all return
the `None` sentinel: they are invoked, contribute their ids to the
trace, and the outcome is that of the remaining hooks. -/
theorem preprocess_request_skip_none (pre rest : List Hook)
    (hpre : ∀ p ∈ pre, p.ret = none) :
    preprocess_request (pre ++ rest) =
      ((preprocess_request rest).1,
       pre.map Hook.id ++ (preprocess_request rest).2) := by
  induction pre with
  | nil => simp
  | cons p ps ih =>
    have hp : p.ret = none := hpre p (by simp)
    have hps : ∀ q ∈ ps, q.ret = none := fun q hq => hpre q (by simp [hq])
    simp [preprocess_request, hp, ih hps]

/-- The event trace of the after-request hook loop is exactly the hook
ids in registration order. -/
theorem run_after_funcs_trace (funcs : List (Nat × (Resp → Resp))) (response : Resp) :
    (run_after_funcs funcs response).2 =
      funcs.map (fun p => Event.after p.1) := by
  induction funcs generalizing response with
  | nil => rfl
  | cons p rest ih =>
    obtain ⟨i, f⟩ := p
    simp [run_after_funcs, ih]

/-- No `save` event is produced by the after-request hook loop. -/
theorem countSaves_run_after_funcs (funcs : List (Nat × (Resp → Resp)))
    (response : Resp) :
    countSaves (run_after_funcs funcs response).2 = 0 := by
  rw [run_after_funcs_trace]
  induction funcs with
  | nil => rfl
  | cons p rest ih => simpa [countSaves, List.filter] using ih

/-- The number of session saves performed by `process_response` is one
when the context's session is non-`None` and zero otherwise. -/
theorem process_response_countSaves (app : App) (sess : Option Sess)
    (response : Resp) :
    countSaves (process_response app sess response).2 =
      (if sess.isSome then 1 else 0) := by
  cases sess with
  | none => simpa [process_response] using countSaves_run_after_funcs app.after_request_funcs response
  | some s =>
    simpa [process_response, countSaves, List.filter] using
      countSaves_run_after_funcs app.after_request_funcs (save_session (some s) response)

/-- Claim C6: accessing any ambient proxy (`current_app`, `request`,
`session`, `g`) while the context stack is empty fails with the
no-context error; none of them yields a silent default value. -/
theorem proxies_fail_on_empty_stack :
    current_app ([] : List RequestCtx) = .error .noContext ∧
    request ([] : List RequestCtx) = .error .noContext ∧
    session ([] : List RequestCtx) = .error .noContext ∧
    g ([] : List RequestCtx) = .error .noContext :=
  ⟨rfl, rfl, rfl, rfl⟩

/-- Claim C7: in `process_response`, the session is persisted into the
response at most once — exactly once when the session is non-`None` and
never otherwise — the save precedes every after-request hook invocation
in the event trace, and the number of registered after-request hooks
does not change the number of saves. -/
theorem process_response_session_persisted_once (app : App) (sess : Option Sess)
    (response : Resp) :
    (process_response app sess response).2 =
      (if sess.isSome then [Event.save] else []) ++
        app.after_request_funcs.map (fun p => Event.after p.1) ∧
    countSaves (process_response app sess response).2 =
      (if sess.isSome then 1 else 0) ∧
    ∀ funcs2 : List (Nat × (Resp → Resp)),
      countSaves
          (process_response { app with after_request_funcs := funcs2 } sess
            response).2 =
        countSaves (process_response app sess response).2 := by
  refine ⟨?_, process_response_countSaves app sess response, ?_⟩
  · cases sess with
    | none => simp [process_response, run_after_funcs_trace]
    | some s => simp [process_response, run_after_funcs_trace]
  · intro funcs2
    rw [process_response_countSaves, process_response_countSaves]

/-- Claim C8: response coercion is idempotent on canonical responses —
`make_response` returns a value that is already an instance of the
response class unchanged. -/
theorem make_response_idempotent_on_canonical (r : Resp) :
    make_response (RV.resp r) = .ok r :=
  rfl

/-- Claim C9: coercing a tuple splats its elements positionally into the
response constructor, and in particular the tuple `("hello", 201)`
yields a response with body `"hello"` and status code `201`. -/
theorem make_response_tuple_splat (args : List PyObj) :
    make_response (RV.tuple args) = response_ctor args ∧
    make_response (RV.tuple [PyObj.str "hello", PyObj.int 201]) =
      .ok { body := "hello", status := 201, cookies := [] } :=
  ⟨rfl, rfl⟩

/-- Claim C2: for a non-HTTP exception raised during routing or by the
view, dispatch consults the error handler registered under status 500
only — if the debug flag is set or no 500 handler is registered the
exception propagates uncaught, otherwise the 500 handler receives the
exception and its return value is the dispatch result; the outcome
depends on nothing in the registry beyond the 500 slot. -/
theorem dispatch_non_http_exception (app : App) (t : Nat) :
    (app.debug = true ∨ app.error_handlers 500 = none →
      dispatch_request app (.error (.other t)) = .error (.other t)) ∧
    (∀ handler, app.debug = false → app.error_handlers 500 = some handler →
      dispatch_request app (.error (.other t)) = .ok (handler (.other t))) ∧
    (∀ app2 : App, app.debug = app2.debug →
      app.error_handlers 500 = app2.error_handlers 500 →
      dispatch_request app (.error (.other t)) =
        dispatch_request app2 (.error (.other t))) := by
  refine ⟨?_, ?_, ?_⟩
  · rintro (hdbg | hnone)
    · cases hh : app.error_handlers 500 <;> simp [dispatch_request, hh, hdbg]
    · simp [dispatch_request, hnone]
  · intro handler hdbg hsome
    simp [dispatch_request, hsome, hdbg]
  · intro app2 hdbg heq
    unfold dispatch_request
    rw [heq, hdbg]

/-- Witness for C2: with debug off and a handler registered under 500, a
non-HTTP exception is recovered by that handler. -/
theorem dispatch_non_http_exception_witness :
    dispatch_request appWith500 (.error (.other 7)) = .ok (RV.str "handled500") :=
  (dispatch_non_http_exception appWith500 7).2.1 h500 rfl rfl

/-- Claim C3: for an HTTP exception raised during routing or by the
view, dispatch consults the error handler registered under exactly the
exception's status code — the handler's return value is the result when
one is registered, and the exception object itself is the result
otherwise; the outcome is independent of the debug flag and of handlers
registered under any other code. -/
theorem dispatch_http_exception (app : App) (e : HTTPExc) :
    (app.error_handlers e.code = none →
      dispatch_request app (.error (.http e)) = .ok (.httpExc e)) ∧
    (∀ handler, app.error_handlers e.code = some handler →
      dispatch_request app (.error (.http e)) = .ok (handler (.http e))) ∧
    (∀ app2 : App, app.error_handlers e.code = app2.error_handlers e.code →
      dispatch_request app (.error (.http e)) =
        dispatch_request app2 (.error (.http e))) := by
  refine ⟨?_, ?_, ?_⟩
  · intro hnone
    simp [dispatch_request, hnone]
  · intro handler hsome
    simp [dispatch_request, hsome]
  · intro app2 heq
    have h1 : dispatch_request app (.error (.http e)) =
        match app.error_handlers e.code with
        | none => .ok (.httpExc e)
        | some handler => .ok (handler (.http e)) := rfl
    have h2 : dispatch_request app2 (.error (.http e)) =
        match app2.error_handlers e.code with
        | none => .ok (.httpExc e)
        | some handler => .ok (handler (.http e)) := rfl
    rw [h1, h2, heq]

/-- Witness for C3: a registered 404 handler recovers a 404 routing
failure; and for the other hypotheses, with no handler registered the
exception object itself is returned, also under the debug flag. -/
theorem dispatch_http_exception_witness :
    dispatch_request appWith404
        (.error (.http { code := 404, body := "nf" })) =
      .ok (RV.str "custom404") ∧
    dispatch_request dbgApp (.error (.http { code := 404, body := "nf" })) =
      .ok (RV.httpExc { code := 404, body := "nf" }) :=
  ⟨(dispatch_http_exception appWith404 { code := 404, body := "nf" }).2.1 h404 rfl,
   (dispatch_http_exception dbgApp { code := 404, body := "nf" }).1 rfl⟩

/-- Claim C4: `_RequestContext.__exit__` pops the context stack
unconditionally on a normal exit; on an exceptional exit it pops if and
only if the application's debug flag is false, and with debug set the
stack is left untouched, so the `request` proxy still resolves to the
retained top context. -/
theorem ctx_exit_pop_policy (c : RequestCtx) (tb : Option Exc)
    (stack : List RequestCtx) :
    (tb = none → RequestCtx.exitScope c tb stack = stack.tail) ∧
    (tb ≠ none → c.app.debug = false →
      RequestCtx.exitScope c tb stack = stack.tail) ∧
    (tb ≠ none → c.app.debug = true →
      RequestCtx.exitScope c tb stack = stack ∧
      ∀ topc rest, stack = topc :: rest →
        request (RequestCtx.exitScope c tb stack) = .ok topc.request) := by
  refine ⟨?_, ?_, ?_⟩
  · intro hnone
    simp [RequestCtx.exitScope, hnone]
  · intro _ hdbg
    simp [RequestCtx.exitScope, hdbg]
  · intro htb hdbg
    have hkeep : RequestCtx.exitScope c tb stack = stack := by
      simp [RequestCtx.exitScope, htb, hdbg]
    refine ⟨hkeep, ?_⟩
    intro topc rest hstack
    rw [hkeep, hstack]
    rfl

/-- Witness for C4: an exceptional exit in debug mode retains the
context, and the `request` proxy still resolves to it; a normal exit
pops it. -/
theorem ctx_exit_pop_policy_witness :
    RequestCtx.exitScope dbgCtx (some (Exc.other 0)) [dbgCtx] = [dbgCtx] ∧
    request (RequestCtx.exitScope dbgCtx (some (Exc.other 0)) [dbgCtx]) =
      .ok dbgCtx.request ∧
    RequestCtx.exitScope dbgCtx none [dbgCtx] = [] := by
  have hexc := (ctx_exit_pop_policy dbgCtx (some (Exc.other 0)) [dbgCtx]).2.2
      (by simp) rfl
  have hnorm := (ctx_exit_pop_policy dbgCtx none [dbgCtx]).1 rfl
  exact ⟨hexc.1, hexc.2 dbgCtx [] rfl, hnorm⟩

/-- Counterexample to claim C5 as stated: a WSGI callable matches none
of the three accepted shapes the claim lists (canonical response, text
body, tuple), yet `make_response` coerces it successfully instead of
failing with the unroutable-result error. -/
theorem make_response_claim_shapes_counterexample :
    claimAcceptedShape (RV.wsgi { body := "ok", status := 200 }) = false ∧
    make_response (RV.wsgi { body := "ok", status := 200 }) =
      .ok { body := "ok", status := 200, cookies := [] } ∧
    make_response (RV.wsgi { body := "ok", status := 200 }) ≠
      .error CoerceErr.unroutable :=
  ⟨rfl, rfl, fun h => Except.noConfusion h⟩

/-- The response constructor rejects a malformed argument tuple with the
construction failure, never with the unroutable-result error. -/
theorem response_ctor_ne_unroutable (args : List PyObj) :
    response_ctor args ≠ .error .unroutable := by
  unfold response_ctor
  split <;> simp

/-- Claim C5 (amended): `make_response` returns a canonical response for
every accepted shape — an already-canonical response, a text body, a
well-formed tuple of response-constructor arguments, or a value that
`force_type` can invoke as a WSGI application (a WSGI callable or an
HTTP exception object) — and fails with the unroutable-result error
exactly on values of no recognised shape, while a recognised but
malformed tuple instead fails inside the response constructor. -/
theorem make_response_shape_totality (rv : RV) :
    (acceptedShape rv = true → ∃ r, make_response rv = .ok r) ∧
    (recognizedShape rv = false → make_response rv = .error .unroutable) ∧
    (recognizedShape rv = true → acceptedShape rv = false →
      make_response rv = .error .construction) := by
  cases rv with
  | resp r => exact ⟨fun _ => ⟨r, rfl⟩, fun h => (nomatch h), fun _ h => (nomatch h)⟩
  | str s => exact ⟨fun _ => ⟨_, rfl⟩, fun h => (nomatch h), fun _ h => (nomatch h)⟩
  | tuple args =>
    refine ⟨?_, fun h => (nomatch h), ?_⟩
    · intro h
      simp only [acceptedShape, tupleCtorOk] at h
      cases hc : response_ctor args with
      | ok r => exact ⟨r, by simp [make_response, hc]⟩
      | error c => rw [hc] at h; cases h
    · intro _ hacc
      simp only [acceptedShape, tupleCtorOk] at hacc
      cases hc : response_ctor args with
      | ok r => rw [hc] at hacc; cases hacc
      | error c =>
        have hne := response_ctor_ne_unroutable args
        rw [hc] at hne
        cases c with
        | unroutable => exact absurd rfl hne
        | construction => simp [make_response, hc]
  | wsgi w => exact ⟨fun _ => ⟨_, rfl⟩, fun h => (nomatch h), fun _ h => (nomatch h)⟩
  | httpExc e => exact ⟨fun _ => ⟨_, rfl⟩, fun h => (nomatch h), fun _ h => (nomatch h)⟩
  | other t => exact ⟨fun h => (nomatch h), fun _ => rfl, fun h => (nomatch h)⟩

/-- Witness for the amended C5: a WSGI callable coerces to a response, a
value of no recognised shape fails with the unroutable-result error, and
a malformed tuple (leading integer argument) fails at response
construction. -/
theorem make_response_shape_totality_witness :
    (∃ r, make_response (RV.wsgi { body := "w", status := 200 }) = .ok r) ∧
    make_response (RV.other 0) = .error .unroutable ∧
    make_response (RV.tuple [PyObj.int 1]) = .error .construction :=
  ⟨(make_response_shape_totality (RV.wsgi { body := "w", status := 200 })).1 rfl,
   (make_response_shape_totality (RV.other 0)).2.1 rfl,
   (make_response_shape_totality (RV.tuple [PyObj.int 1])).2.2 rfl rfl⟩

/-- Claim C1: the before-request hooks run in registration order, and
the first hook whose return value is not the `None` sentinel
short-circuits dispatch — its value becomes the result, no later
before-hook runs, routing and the view are never consulted, and the
value still passes through `make_response` and `process_response` (the
after-request hooks).  The test is identity with the sentinel, not
falsiness: the hypothesis only requires the returned value to be
non-`None`, so an empty string or zero also short-circuits. -/
theorem before_hook_short_circuit
    (app : App) (view : Except Exc RV) (sess : Option Sess)
    (pre : List Hook) (h : Hook) (post : List Hook) (v : RV)
    (hfuncs : app.before_request_funcs = pre ++ h :: post)
    (hpre : ∀ p ∈ pre, p.ret = none)
    (hv : h.ret = some v) :
    preprocess_request app.before_request_funcs =
      (some v, pre.map Hook.id ++ [h.id]) ∧
    wsgi_app app view sess =
      (match make_response v with
       | .error c => .error (.coerce c)
       | .ok response =>
          .ok ((process_response app sess response).1,
               { beforeRun := pre.map Hook.id ++ [h.id],
                 viewInvoked := false,
                 events := (process_response app sess response).2 })) := by
  have hpp : preprocess_request app.before_request_funcs =
      (some v, pre.map Hook.id ++ [h.id]) := by
    rw [hfuncs, preprocess_request_skip_none pre (h :: post) hpre]
    simp [preprocess_request, hv]
  refine ⟨hpp, ?_⟩
  unfold wsgi_app
  rw [hpp]

/-- Witness for C1: with a `None`-returning hook first, an
empty-string-returning hook second and a further value-returning hook
third, dispatch short-circuits at the second hook — the third hook and
the view never run — and the empty-string body still flows through
coercion and the registered after-request hook, which sets status 201. -/
theorem before_hook_short_circuit_witness :
    preprocess_request appHooks.before_request_funcs =
      (some (RV.str ""), [0, 1]) ∧
    wsgi_app appHooks (.error (.other 3)) none =
      .ok ({ body := "", status := 201, cookies := [] },
           { beforeRun := [0, 1], viewInvoked := false,
             events := [Event.after 5] }) := by
  have hth := before_hook_short_circuit appHooks (.error (.other 3)) none
      [hookNone] hookEmpty [hookLate] (RV.str "") rfl
      (by intro p hp; simp only [List.mem_singleton] at hp; rw [hp]; rfl) rfl
  exact ⟨hth.1, hth.2⟩

/-- Claim C10: within one request context, the first call to
`get_flashed_messages` removes the `_flashes` entry from the session
(defaulting to the empty list when the key is absent) and caches the
result on the context; any later call on the resulting context returns
that same cached value and leaves the context — session included —
unchanged. -/
theorem get_flashed_messages_caching (ctx : RequestCtx) (s : Sess)
    (hf : ctx.flashes = none) (hs : ctx.session = some s) :
    get_flashed_messages ctx =
      .ok ((sessionGet s "_flashes").getD (PyObj.list []),
           { ctx with session := some (sessionErase s "_flashes"),
                      flashes := some ((sessionGet s "_flashes").getD (PyObj.list [])) }) ∧
    (∀ ctx2 : RequestCtx, ∀ fs : PyObj, ctx2.flashes = some fs →
      get_flashed_messages ctx2 = .ok (fs, ctx2)) := by
  constructor
  · simp [get_flashed_messages, hf, hs]
  · intro ctx2 fs h2
    simp [get_flashed_messages, h2]

/-- Witness for C10: on a fresh context whose session flashed `"hi"`,
the first call returns the message list, erases `_flashes` from the
session and caches the list; the second call returns the same list and
the same context. -/
theorem get_flashed_messages_caching_witness :
    get_flashed_messages flashCtx =
      .ok (PyObj.list ["hi"],
           { flashCtx with session := some [("user", PyObj.str "ada")],
                           flashes := some (PyObj.list ["hi"]) }) ∧
    get_flashed_messages
        { flashCtx with session := some [("user", PyObj.str "ada")],
                        flashes := some (PyObj.list ["hi"]) } =
      .ok (PyObj.list ["hi"],
           { flashCtx with session := some [("user", PyObj.str "ada")],
                           flashes := some (PyObj.list ["hi"]) }) := by
  have hth := get_flashed_messages_caching flashCtx flashSess rfl rfl
  exact ⟨hth.1, hth.2 _ (PyObj.list ["hi"]) rfl⟩

end Flask
